import Mathlib

/-!
Verification of the counter and theme examples in
"State Management Patterns Beyond Redux".

The repository contains five self-contained React examples: a Context API
theme toggle and four integer counters (Zustand, Recoil, Jotai, MobX).
Each example's state and update handlers are embedded below as pure Lean
functions, translated directly from the snippets in the source files.
-/

namespace Zustand

/-- The `count` field of the Zustand store: `count: 0` (src/Zustand.js). -/
def countDefault : Int := 0

/-- The `increment` action of the Zustand store:
`() => set((state) => ({ count: state.count + 1 }))` (src/Zustand.js). -/
def increment (count : Int) : Int := count + 1

end Zustand

namespace Recoil

/-- The Recoil atom `countState` with `default: 0` (src/Recoil.js). -/
def countStateDefault : Int := 0

/-- The Recoil selector `doubleCountState`:
`get: ({ get }) => get(countState) * 2` (src/Recoil.js). -/
def doubleCountState (count : Int) : Int := count * 2

/-- The increment button handler of the Recoil Counter component:
`onClick={() => setCount(count + 1)}` (src/Recoil.js). -/
def incrementClick (count : Int) : Int := count + 1

/-- The value of `count` after `n` clicks of the increment button,
starting from the atom default. -/
def reachableCount (n : Nat) : Int :=
  incrementClick^[n] countStateDefault

end Recoil

namespace Jotai

/-- The Jotai atom `countAtom = atom(0)`. -/
def countAtomDefault : Int := 0

/-- The increment button handler of the Jotai Counter component:
`onClick={() => setCount((c) => c + 1)}`. -/
def incrementClick (c : Int) : Int := c + 1

end Jotai

namespace MobX

/-- The MobX `CounterStore` class: observable state is the single field
`count`. -/
structure CounterStore where
  count : Int
deriving DecidableEq

/-- The `increment` action of `CounterStore`: `this.count++`. -/
def CounterStore.increment (s : CounterStore) : CounterStore :=
  { s with count := s.count + 1 }

/-- The module-level instance `const counterStore = new CounterStore()`;
the class initializer sets `count = 0`. -/
def counterStore : CounterStore := { count := 0 }

/-- The MobX increment step viewed as a function on the integer count:
construct a store holding `v`, run `increment`, and read `count`. -/
def stepCount (v : Int) : Int :=
  (CounterStore.increment { count := v }).count

end MobX

namespace ContextAPI

/-- The initial theme of the `ThemeProvider`: `useState('light')`. -/
def themeDefault : String := "light"

/-- The toggle button handler of the `App` component:
`onClick={() => setTheme(theme === 'dark' ? 'light' : 'dark')}`. -/
def toggleTheme (theme : String) : String :=
  if theme = "dark" then "light" else "dark"

/-- The rendered background of the `App` component:
`background: theme === 'dark' ? '#333' : '#fff'`. -/
def background (theme : String) : String :=
  if theme = "dark" then "#333" else "#fff"

/-- The theme after `n` clicks of the toggle button, starting from the
provider's initial theme. -/
def reachableTheme (n : Nat) : String :=
  toggleTheme^[n] themeDefault

end ContextAPI

/-- The five examples of the article, in order of appearance. -/
inductive ExampleKind
  | contextAPI
  | zustand
  | recoil
  | jotai
  | mobx
deriving DecidableEq

/-- A state value held by one of the examples: the counters hold an
integer, the Context API example holds a theme string. -/
inductive StateVal
  | int (n : Int)
  | str (s : String)
deriving DecidableEq

/-- The initial state of each of the five examples, as written in the
source: the four counters start at 0, the Context API theme starts at
`'light'`. -/
def initState : ExampleKind → StateVal
  | .contextAPI => .str ContextAPI.themeDefault
  | .zustand    => .int Zustand.countDefault
  | .recoil     => .int Recoil.countStateDefault
  | .jotai      => .int Jotai.countAtomDefault
  | .mobx       => .int MobX.counterStore.count

namespace CounterOps

/-- The counter read operation, Except-valued: the source components read
the current count directly with no failure branch, so reading always
succeeds with the current value. -/
def read (count : Int) : Except String Int := Except.ok count

/-- The counter increment operation, Except-valued: the source increment
handlers (`Zustand.increment`, MobX `CounterStore.increment`, and the
Recoil/Jotai click handlers) have no failure branch, so incrementing
always succeeds with the new value. -/
def incrementE (count : Int) : Except String Int :=
  Except.ok (Zustand.increment count)

end CounterOps

/-- Helper: iterating any step function that adds one, `n` times from 0,
yields `n`. -/
lemma iterate_add_one_from_zero (f : Int → Int) (h : ∀ c, f c = c + 1) :
    ∀ n : Nat, f^[n] 0 = n := by
  intro n
  induction n with
  | zero => simp
  | succ k ih =>
      rw [Function.iterate_succ_apply', h, ih]
      push_cast
      ring

/-- Helper: iterating the MobX increment `n` times from the module
counter store yields a store whose count is `n`. -/
lemma mobx_iterate_count (n : Nat) :
    (MobX.CounterStore.increment^[n] MobX.counterStore).count = n := by
  induction n with
  | zero => rfl
  | succ k ih =>
      rw [Function.iterate_succ_apply']
      simp only [MobX.CounterStore.increment, ih]
      push_cast
      ring

/-- Helper: every theme reachable from `'light'` by toggling is `'light'`
or `'dark'`. -/
lemma reachableTheme_cases (n : Nat) :
    ContextAPI.reachableTheme n = "light" ∨
    ContextAPI.reachableTheme n = "dark" := by
  induction n with
  | zero => left; rfl
  | succ k ih =>
      unfold ContextAPI.reachableTheme at ih ⊢
      rw [Function.iterate_succ_apply']
      rcases ih with h | h <;> rw [h]
      · right; decide
      · left; decide

/-- C1: for every natural number n, applying the increment operation n
times starting from the initial count 0 yields count = n, in each of the
Zustand, Recoil, Jotai and MobX counter examples (in particular, 3
increments from 0 yield count = 3). -/
theorem increments_from_zero_count_eq_n (n : Nat) :
    Zustand.increment^[n] Zustand.countDefault = n ∧
    Recoil.incrementClick^[n] Recoil.countStateDefault = n ∧
    Jotai.incrementClick^[n] Jotai.countAtomDefault = n ∧
    (MobX.CounterStore.increment^[n] MobX.counterStore).count = n := by
  refine ⟨?_, ?_, ?_, mobx_iterate_count n⟩
  · exact iterate_add_one_from_zero Zustand.increment (fun c => rfl) n
  · exact iterate_add_one_from_zero Recoil.incrementClick (fun c => rfl) n
  · exact iterate_add_one_from_zero Jotai.incrementClick (fun c => rfl) n

/-- C2: in the Recoil example, for every count value reachable by any
sequence of increments from the initial state, the derived selector value
doubleCount equals 2 * count. -/
theorem recoil_doubleCount_eq_two_mul_count (n : Nat) :
    Recoil.doubleCountState (Recoil.reachableCount n) =
      2 * Recoil.reachableCount n := by
  unfold Recoil.doubleCountState
  ring

/-- C3: in every counter example (Zustand, Recoil, Jotai, MobX), the
initial value of count, before any increment is applied, is 0. -/
theorem initial_count_eq_zero :
    Zustand.countDefault = 0 ∧
    Recoil.countStateDefault = 0 ∧
    Jotai.countAtomDefault = 0 ∧
    MobX.counterStore.count = 0 :=
  ⟨rfl, rfl, rfl, rfl⟩

/-- C4: for every counter state v, a single application of the increment
operation produces the state v + 1, in every counter example. -/
theorem increment_step_adds_one (v : Int) :
    Zustand.increment v = v + 1 ∧
    Recoil.incrementClick v = v + 1 ∧
    Jotai.incrementClick v = v + 1 ∧
    (MobX.CounterStore.increment { count := v }).count = v + 1 :=
  ⟨rfl, rfl, rfl, rfl⟩

/-- C5 counterexample: the claim "for every one of the five examples, its
state is an integer with initial value 0" fails at the Context API
example, whose state is the theme string initialized to 'light'. -/
theorem context_state_not_int_zero :
    initState ExampleKind.contextAPI ≠ StateVal.int 0 := by
  decide

/-- C5 amended: each of the four counter examples (Zustand, Recoil,
Jotai, MobX) manages a single integer count initialized to 0, while the
fifth example (Context API) manages a theme string initialized to
'light'. -/
theorem five_examples_state_amended :
    initState ExampleKind.zustand = StateVal.int 0 ∧
    initState ExampleKind.recoil = StateVal.int 0 ∧
    initState ExampleKind.jotai = StateVal.int 0 ∧
    initState ExampleKind.mobx = StateVal.int 0 ∧
    initState ExampleKind.contextAPI = StateVal.str "light" := by
  decide

/-- C6: non-negativity is an invariant of every counter: starting from
the initial state 0, every state reachable by any sequence of increments
is non-negative, and each increment increases the state by exactly
one. -/
theorem count_reachable_nonneg_and_step_one (n : Nat) :
    (0 ≤ Zustand.increment^[n] Zustand.countDefault ∧
      ∀ v : Int, Zustand.increment v = v + 1) ∧
    (0 ≤ Recoil.incrementClick^[n] Recoil.countStateDefault ∧
      ∀ v : Int, Recoil.incrementClick v = v + 1) ∧
    (0 ≤ Jotai.incrementClick^[n] Jotai.countAtomDefault ∧
      ∀ v : Int, Jotai.incrementClick v = v + 1) ∧
    (0 ≤ (MobX.CounterStore.increment^[n] MobX.counterStore).count ∧
      ∀ s : MobX.CounterStore,
        (MobX.CounterStore.increment s).count = s.count + 1) := by
  refine ⟨⟨?_, fun _ => rfl⟩, ⟨?_, fun _ => rfl⟩,
    ⟨?_, fun _ => rfl⟩, ⟨?_, fun _ => rfl⟩⟩
  · rw [show Zustand.countDefault = 0 from rfl,
      iterate_add_one_from_zero Zustand.increment (fun _ => rfl) n]
    exact Int.natCast_nonneg n
  · rw [show Recoil.countStateDefault = 0 from rfl,
      iterate_add_one_from_zero Recoil.incrementClick (fun _ => rfl) n]
    exact Int.natCast_nonneg n
  · rw [show Jotai.countAtomDefault = 0 from rfl,
      iterate_add_one_from_zero Jotai.incrementClick (fun _ => rfl) n]
    exact Int.natCast_nonneg n
  · rw [mobx_iterate_count n]
    exact Int.natCast_nonneg n

/-- C7: for every counter state, the read operation returns the current
integer value and never fails, and the increment operation never fails:
modelled as Except-valued functions, both always return a success
value. -/
theorem read_increment_always_ok (count : Int) :
    CounterOps.read count = Except.ok count ∧
    CounterOps.incrementE count = Except.ok (count + 1) ∧
    (CounterOps.read count).isOk = true ∧
    (CounterOps.incrementE count).isOk = true :=
  ⟨rfl, rfl, rfl, rfl⟩

/-- C8: the four counter increment implementations (Zustand, Recoil,
Jotai, MobX) denote the same function on integer states, mapping n to
n + 1, so the four counter stores are extensionally equivalent as step
functions. -/
theorem increment_functions_extensionally_equal :
    Zustand.increment = Recoil.incrementClick ∧
    Recoil.incrementClick = Jotai.incrementClick ∧
    Jotai.incrementClick = MobX.stepCount ∧
    ∀ v : Int, Zustand.increment v = v + 1 :=
  ⟨funext fun _ => rfl, funext fun _ => rfl, funext fun _ => rfl,
    fun _ => rfl⟩

/-- C9: the theme toggle of the Context API example is an involution on
the set of themes: for every theme that is 'light' or 'dark', toggling
twice returns the original theme. -/
theorem toggle_involution_on_themes (t : String)
    (h : t = "light" ∨ t = "dark") :
    ContextAPI.toggleTheme (ContextAPI.toggleTheme t) = t := by
  rcases h with h | h <;> rw [h] <;> decide

/-- Witness for C9: the involution at the concrete theme 'light'. -/
theorem toggle_involution_on_themes_witness :
    ContextAPI.toggleTheme (ContextAPI.toggleTheme "light") = "light" :=
  toggle_involution_on_themes "light" (Or.inl rfl)

/-- C10: in the Context API example, every theme reachable from the
initial 'light' by any sequence of toggle clicks is 'light' or 'dark',
and the rendered background is '#333' exactly when the theme is 'dark',
and '#fff' exactly when it is 'light'. -/
theorem theme_reachable_and_background (n : Nat) :
    (ContextAPI.reachableTheme n = "light" ∨
      ContextAPI.reachableTheme n = "dark") ∧
    (ContextAPI.background (ContextAPI.reachableTheme n) = "#333" ↔
      ContextAPI.reachableTheme n = "dark") ∧
    (ContextAPI.background (ContextAPI.reachableTheme n) = "#fff" ↔
      ContextAPI.reachableTheme n = "light") := by
  rcases reachableTheme_cases n with h | h <;> rw [h]
  · exact ⟨Or.inl rfl, by decide, by decide⟩
  · exact ⟨Or.inr rfl, by decide, by decide⟩
